import Mathlib

/-!
Verification of the streaming-acquisition core of the PicoScope 2000 GUI.

The development shallowly embeds the Python sources:
  * `picoscope_handler.py` — the `PicoScopeWorker` producer (connect,
    start_streaming, get_data, run, disconnect);
  * `main_window.py` — the `MainWindow` consumer/controller
    (start_acquisition, update_plot, save_data) and its `collections.deque`
    display buffers;
  * `data_saver.py` — `DataSaver.save_to_excel`.

Conventions of the embedding:
  * Voltages and time offsets are rationals (the Python code computes with
    floats; every property proved here is rounding-independent, and the one
    place where the float value of `int(200.0 / (interval * 1e-3))` could
    differ by one from exact division is only ever quantified over).
  * The vendor driver is an oracle: each driver call's outcome is an explicit
    input (`DriverFetch`, a connect result, a streaming-start success bit,
    a file-write result).  The worker's reaction to those outcomes is
    translated from the source.
  * Qt signal emissions become an ordered event list (`WEvent`).
  * A Python exception that a function catches is modelled inside that
    function; one that escapes is modelled as a `raised`/`raisedException`
    outcome that aborts the remaining statements, exactly as in CPython.
-/

/-- One cell of the exported spreadsheet: a string (header) or a number. -/
inductive Cell where
  | str (s : String)
  | num (q : ℚ)
deriving DecidableEq

/-- Signals emitted by `PicoScopeWorker` (pyqtSignal emissions, in order). -/
inductive WEvent where
  | dataAcquired (timeData chA chB : List ℚ)
  | finished
  | errorOccurred (msg : String)
deriving DecidableEq

/-- Outcome of one `ps2000_get_values` driver call, as seen by `get_data`:
either it returns a sample count (filling the two buffers, which we carry
already converted to millivolts since `adc2mV` is applied to the whole
buffer before the `[:n_samples]` slice), writing the overflow flag, or it
raises an exception with a message. -/
inductive DriverFetch where
  | ok (n : ℕ) (bufA bufB : List ℚ) (overflow : Bool)
  | fetchRaise (msg : String)
deriving DecidableEq

/-- The value `get_data` returns to `run`.  The source is inconsistent about
its own arity: the success paths return a 4-tuple
`time_data, chA_mv, chB_mv, n_samples` (lines 106-107) while the
no-handle path and the exception path return the 3-tuple `[], [], 0`
(lines 85 and 100). -/
inductive GetDataRet where
  | quad (timeData chA chB : List ℚ) (n : ℕ)
  | triple
deriving DecidableEq

/-- Mutable state of a `PicoScopeWorker` that the embedded code reads or
writes: the cooperative-stop flag `self.running`, whether `self.handle`
is set, the `self.overflow` cell the driver writes into, and the
configured sample interval. -/
structure WorkerSt where
  running : Bool
  handleSet : Bool
  overflowFlag : Bool
  intervalUs : ℤ
deriving DecidableEq

/-- `PicoScopeWorker.get_data` (picoscope_handler.py lines 76-107).
Returns the Python return value, the worker state after the call, and the
signals emitted during the call.

  * no handle: `return [], [], 0` (a 3-tuple);
  * driver raises: emit `error_occurred`, `self.stop()` (running := false),
    `return [], [], 0` (a 3-tuple);
  * `n_samples > 0`: `time_data = [interval * 1e-3] * n_samples`, the two
    buffers converted and sliced to `n_samples`, returned as a 4-tuple;
  * otherwise: `return [], [], [], 0`. -/
def get_data (w : WorkerSt) (f : DriverFetch) : GetDataRet × WorkerSt × List WEvent :=
  if w.handleSet then
    match f with
    | .fetchRaise msg =>
        (.triple, { w with running := false },
          [.errorOccurred (("Error getting data: ") ++ msg)])
    | .ok n bufA bufB ov =>
        if 0 < n then
          (.quad (List.replicate n ((w.intervalUs : ℚ) * (1 / 1000)))
            (bufA.take n) (bufB.take n) n,
           { w with overflowFlag := ov }, [])
        else
          (.quad [] [] [] 0, { w with overflowFlag := ov }, [])
  else
    (.triple, w, [])

/-- The `while self.running` poll loop of `PicoScopeWorker.run`
(picoscope_handler.py lines 128-132), driven by a finite trace of driver
outcomes; an exhausted trace models the cooperative stop flag having been
cleared (the loop head then observes `running = false` and exits).
Returns the emitted events, the final worker state, and whether an
exception escaped the loop.  The statement
`time_data, chA_mv, chB_mv, n_samples = self.get_data()` unpacks four
names, so a 3-tuple return from `get_data` raises `ValueError` out of
`run` (nothing catches it). -/
def runLoop : WorkerSt → List DriverFetch → List WEvent × WorkerSt × Bool
  | w, [] => ([], w, false)
  | w, f :: rest =>
      if w.running then
        match get_data w f with
        | (.triple, w2, evs) => (evs, w2, true)
        | (.quad t a b n, w2, evs) =>
            ((evs ++ (if 0 < n then [WEvent.dataAcquired t a b] else []))
               ++ (runLoop w2 rest).1,
             (runLoop w2 rest).2.1, (runLoop w2 rest).2.2)
      else ([], w, false)

/-- Result of one `PicoScopeWorker.run` invocation: the emitted signals in
order, how many times the `disconnect` teardown body (`ps2000_stop` +
`close`) executed, and whether an exception escaped `run`. -/
structure RunResult where
  events : List WEvent
  teardowns : ℕ
  raised : Bool
deriving DecidableEq

/-- `PicoScopeWorker.run` (picoscope_handler.py lines 118-135).
`connectRes` is the outcome of `connect()` (the caught exception's message
on failure); `streamOk` says whether `ps2000_run_streaming` returned a
success status — on a failure status `assert_pico2000_ok` raises
`PicoSDKCtypesError`, and `run` has no handler, so the exception escapes
with no teardown and no `finished` emission.  `disconnect` (lines
109-116) runs its stop/close body only when the handle is set. -/
def runWorker (connectRes : Except String Unit) (streamOk : Bool)
    (trace : List DriverFetch) (w0 : WorkerSt) : RunResult :=
  match connectRes with
  | .error e =>
      -- connect() caught the exception, emitted error_occurred, attempted
      -- disconnect (no handle yet: no-op) and returned False; run then emits
      -- finished and returns (lines 122-124).
      { events := [.errorOccurred e, .finished], teardowns := 0, raised := false }
  | .ok _ =>
      let w1 : WorkerSt := { w0 with handleSet := true }
      if streamOk then
        match runLoop w1 trace with
        | (evs, _, true) =>
            { events := evs, teardowns := 0, raised := true }
        | (evs, w2, false) =>
            { events := evs ++ [.finished],
              teardowns := if w2.handleSet then 1 else 0,
              raised := false }
      else
        { events := [], teardowns := 0, raised := true }

/-- A fresh worker as built by `PicoScopeWorker.__init__` for a given
sample interval: `self.running = True`, no handle yet, overflow cell 0. -/
def workerInit (intervalUs : ℤ) : WorkerSt :=
  { running := true, handleSet := false, overflowFlag := false, intervalUs := intervalUs }

/-- One append to a `collections.deque` with `maxlen = C`
(the display deques created in main_window.py lines 143-145): below
capacity the element is appended; at capacity the single oldest element
is popped from the left first; a deque with `maxlen = 0` stays empty. -/
def dequePush (C : ℕ) (buf : List ℚ) (x : ℚ) : List ℚ :=
  if buf.length < C then buf ++ [x]
  else if 0 < C then buf.drop 1 ++ [x]
  else []

/-- `deque.extend(xs)` on a deque with `maxlen = C`: elements of `xs` are
appended one by one (main_window.py lines 203-205). -/
def dequeExtend (C : ℕ) (buf xs : List ℚ) : List ℚ :=
  xs.foldl (dequePush C) buf

/-- The rows appended to `self.all_data` by one `update_plot` call
(main_window.py lines 197-200): row `i` is
`(time_data[i] + total_samples_acquired * sample_interval_us * 1e-3,
  chA_data[i], chB_data[i])`. -/
def rowsOf (total : ℕ) (intervalUs : ℤ) (timeData chA chB : List ℚ) :
    List (ℚ × ℚ × ℚ) :=
  (List.range timeData.length).map (fun i =>
    (timeData.getD i 0 + (total : ℚ) * (intervalUs : ℚ) * (1 / 1000),
     chA.getD i 0, chB.getD i 0))

/-- Mutable `MainWindow` state touched by the embedded methods.  The GUI
label/curve updates in `update_plot` are pure sinks (they only display the
last deque entries) and are not carried.  `dequeSize` is an integer
because line 142 can assign a negative value before line 143 raises. -/
structure MWState where
  isRunning : Bool
  allData : List (ℚ × ℚ × ℚ)
  totalSamplesAcquired : ℕ
  sampleIntervalUs : ℤ
  dequeSize : ℤ
  timeDeque : List ℚ
  chADeque : List ℚ
  chBDeque : List ℚ
  worker : Option (ℤ × ℤ × ℤ × ℤ)
deriving DecidableEq

/-- `MainWindow.update_plot` (main_window.py lines 185-222): if the batch
is non-empty, append its rows to `all_data`, extend the three display
deques, and add the batch size to `total_samples_acquired`; an empty
batch changes nothing. -/
def update_plot (s : MWState) (timeData chA chB : List ℚ) : MWState :=
  if 0 < timeData.length then
    { s with
      allData := s.allData ++
        rowsOf s.totalSamplesAcquired s.sampleIntervalUs timeData chA chB,
      timeDeque := dequeExtend s.dequeSize.toNat s.timeDeque timeData,
      chADeque := dequeExtend s.dequeSize.toNat s.chADeque chA,
      chBDeque := dequeExtend s.dequeSize.toNat s.chBDeque chB,
      totalSamplesAcquired := s.totalSamplesAcquired + timeData.length }
  else s

/-- Delivering a sequence of `data_acquired` batches to `update_plot`,
one after the other (batches are delivered serially to the slot). -/
def processBatches (s : MWState) (batches : List (List ℚ × List ℚ × List ℚ)) :
    MWState :=
  batches.foldl (fun st p => update_plot st p.1 p.2.1 p.2.2) s

/-- How `MainWindow.start_acquisition` returns to its caller. -/
inductive StartOutcome where
  | alreadyRunning
  | invalidInput
  | raisedException
  | started
deriving DecidableEq

/-- `MainWindow.start_acquisition` (main_window.py lines 119-166).  The
four arguments are the results of `int(field.text())` for the four input
fields, in source order (`none` = `ValueError`).  Source behaviour:

  * line 123: if already running, warn and return — nothing is touched;
  * lines 127-134: parse the four fields inside one `try`; the interval is
    assigned to `self.sample_interval_us` before the remaining parses, so
    it survives a later `ValueError`; any parse failure returns with the
    invalid-input message — there is **no positivity check**;
  * lines 137-141: clear `all_data`, the counter and the three deques;
  * line 142: `int(200.0 / (interval * 1e-3))`; a zero interval raises
    `ZeroDivisionError` here (uncaught);
  * lines 143-145: recreate the deques; a negative size raises
    `ValueError` here (uncaught);
  * lines 148-166: build the worker with the parsed config and flip
    `is_running`.

The quotient is taken exactly (`200000 / interval`, truncated division);
the float expression can differ from it by one unit, which no theorem
below depends on. -/
def start_acquisition (s : MWState)
    (tInterval tMaxSamples tOversampling tChannelRange : Option ℤ) :
    MWState × StartOutcome :=
  if s.isRunning then (s, .alreadyRunning)
  else
    match tInterval with
    | none => (s, .invalidInput)
    | some i =>
        let s1 := { s with sampleIntervalUs := i }
        match tMaxSamples, tOversampling, tChannelRange with
        | some m, some o, some r =>
            let s2 := { s1 with
              allData := [], totalSamplesAcquired := 0,
              timeDeque := [], chADeque := [], chBDeque := [] }
            if i = 0 then (s2, .raisedException)
            else
              let d : ℤ := 200000 / i
              if d < 0 then ({ s2 with dequeSize := d }, .raisedException)
              else
                ({ s2 with
                    dequeSize := d
                    worker := some (i, m, o, r)
                    isRunning := true },
                 .started)
        | _, _, _ => (s1, .invalidInput)

/-- The header row written by `DataSaver.save_to_excel` (data_saver.py
line 34). -/
def headerRow : List Cell :=
  [.str ("Time (ms)"), .str ("Voltage Channel A (mV)"),
   .str ("Voltage Channel B (mV)")]

/-- `ws.append(list(row))` for one data row (data_saver.py line 41). -/
def rowOf (r : ℚ × ℚ × ℚ) : List Cell :=
  [.num r.1, .num r.2.1, .num r.2.2]

/-- Caller-visible outcome of `DataSaver.save_to_excel`: whether an
exception escaped to the caller, the sheet built in memory (header plus
appended rows, in order), and whether `wb.save` wrote it to disk. -/
structure ExcelOutcome where
  raised : Bool
  sheet : List (List Cell)
  written : Bool
deriving DecidableEq

/-- `DataSaver.save_to_excel` (data_saver.py lines 20-59).  The whole body
sits in one `try` whose `except Exception` handler only prints, so no
exception reaches the caller.  Sheet building (header append, then one
append per row; the column-width pass reads cells only) is pure; the one
fallible statement is `wb.save`, whose outcome is the `writeRes` input. -/
def save_to_excel (plotData : List (ℚ × ℚ × ℚ)) (writeRes : Except String Unit) :
    ExcelOutcome :=
  let sheet := plotData.foldl (fun ws r => ws ++ [rowOf r]) [headerRow]
  match writeRes with
  | .ok _ => { raised := false, sheet := sheet, written := true }
  | .error _ => { raised := false, sheet := sheet, written := false }

/-- How `MainWindow.save_data` reports to the user (the three
`QMessageBox` calls on lines 229, 233 and 238). -/
inductive SaveOutcome where
  | warningRunning
  | infoNoData
  | infoSuccess
deriving DecidableEq

/-- `MainWindow.save_data` (main_window.py lines 224-238): refuse while
running, refuse when `all_data` is empty, otherwise call the serializer
and then unconditionally report success.  Returns the (unchanged) window
state, the message shown, and the serializer outcome when it ran. -/
def save_data (s : MWState) (writeRes : Except String Unit) :
    MWState × SaveOutcome × Option ExcelOutcome :=
  if s.isRunning then (s, .warningRunning, none)
  else if s.allData.isEmpty then (s, .infoNoData, none)
  else (s, .infoSuccess, some (save_to_excel s.allData writeRes))

/-- `MainWindow.__init__` state (main_window.py lines 24-39) with the
default configuration (interval 10 µs, display window 200 ms). -/
def mwInit : MWState :=
  { isRunning := false, allData := [], totalSamplesAcquired := 0,
    sampleIntervalUs := 10, dequeSize := 20000,
    timeDeque := [], chADeque := [], chBDeque := [], worker := none }

/-- A window mid-run: `is_running` set, some accumulated data. -/
def mwRunning : MWState :=
  { mwInit with
    isRunning := true
    allData := [((1 : ℚ) / 100, 5, 6)]
    totalSamplesAcquired := 1
    worker := some (10, 50000, 1, 9) }

/-- An idle window holding one recorded sample (a state reachable after a
run of one single-sample batch followed by stop). -/
def mwSaved : MWState :=
  { mwInit with allData := [((1 : ℚ) / 100, 1, 2)], totalSamplesAcquired := 1 }

/-- A worker right after a successful `connect()`: handle set, running. -/
def wConn : WorkerSt :=
  { workerInit 10 with handleSet := true }

/-- Repeated deque appends starting from an empty deque keep exactly the
last `C` elements: the fold of `dequePush` equals `drop (length - C)`. -/
theorem dequeExtend_empty_eq_drop (C : ℕ) (xs : List ℚ) :
    dequeExtend C [] xs = xs.drop (xs.length - C) := by
  induction xs using List.reverseRecOn with
  | nil => simp [dequeExtend]
  | append_singleton ys y ih =>
    have hstep : dequeExtend C [] (ys ++ [y]) = dequePush C (dequeExtend C [] ys) y := by
      simp [dequeExtend, List.foldl_append]
    rw [hstep, ih]
    rcases Nat.lt_or_ge ys.length C with hlt | hge
    · have h0 : ys.length - C = 0 := by omega
      have h1 : ys.length + 1 - C = 0 := by omega
      simp only [h0, List.drop_zero, List.length_append, List.length_singleton, h1]
      simp [dequePush, hlt]
    · rcases Nat.eq_zero_or_pos C with hC0 | hCpos
      · subst hC0
        have hL : ys.drop (ys.length - 0) = ([] : List ℚ) :=
          List.drop_eq_nil_of_le (by omega)
        rw [hL]
        have hR : (ys ++ [y]).drop ((ys ++ [y]).length - 0) = ([] : List ℚ) :=
          List.drop_eq_nil_of_le (by simp)
        rw [hR]
        simp [dequePush]
      · have hlen : (ys.drop (ys.length - C)).length = C := by
          rw [List.length_drop]; omega
        have hnotlt : ¬ (ys.drop (ys.length - C)).length < C := by omega
        rw [dequePush, if_neg hnotlt, if_pos hCpos]
        rw [List.drop_drop]
        have harith : ys.length - C + 1 = ys.length + 1 - C := by omega
        have hle : ys.length + 1 - C ≤ ys.length := by omega
        rw [harith]
        rw [List.length_append, List.length_singleton,
            List.drop_append_of_le_length hle]

/-- Projecting the rows appended by `update_plot` onto their two voltage
components recovers the zipped input channels. -/
theorem rowsOf_proj (total : ℕ) (iv : ℤ) (t a b : List ℚ)
    (ha : a.length = t.length) (hb : b.length = t.length) :
    (rowsOf total iv t a b).map (fun r => (r.2.1, r.2.2)) = a.zip b := by
  apply List.ext_getElem
  · simp [rowsOf, ha, hb]
  · intro i h1 h2
    have hi : i < t.length := by simp [rowsOf] at h1; exact h1
    simp only [rowsOf, List.getElem_map, List.getElem_range, List.getElem_zip]
    rw [List.getD_eq_getElem a 0 (by omega), List.getD_eq_getElem b 0 (by omega)]

/-- One `update_plot` call contributes exactly one row per input sample. -/
theorem rowsOf_length (total : ℕ) (iv : ℤ) (t a b : List ℚ) :
    (rowsOf total iv t a b).length = t.length := by
  simp [rowsOf]

/-- Effect of one `update_plot` call on the session log and the counter
(holds for empty and non-empty batches alike). -/
theorem update_plot_step (s : MWState) (t a b : List ℚ) :
    (update_plot s t a b).allData
      = s.allData ++ rowsOf s.totalSamplesAcquired s.sampleIntervalUs t a b
  ∧ (update_plot s t a b).totalSamplesAcquired
      = s.totalSamplesAcquired + t.length := by
  by_cases h : 0 < t.length
  · simp [update_plot, h]
  · have ht : t = [] := List.length_eq_zero.mp (by omega)
    subst ht
    simp [update_plot, rowsOf]

/-- Delivering a batch sequence to `update_plot` grows the session log by
exactly the sum of the batch sizes and appends the samples in arrival
order, for any starting state. -/
theorem processBatches_general (batches : List (List ℚ × List ℚ × List ℚ)) :
    ∀ s : MWState,
      (∀ p ∈ batches, p.2.1.length = p.1.length ∧ p.2.2.length = p.1.length) →
      (processBatches s batches).allData.length
          = s.allData.length + (batches.map (fun p => p.1.length)).sum
    ∧ (processBatches s batches).allData.map (fun r => (r.2.1, r.2.2))
          = s.allData.map (fun r => (r.2.1, r.2.2))
            ++ batches.flatMap (fun p => p.2.1.zip p.2.2) := by
  induction batches with
  | nil => intro s _; simp [processBatches]
  | cons hd tl ih =>
    intro s hw
    have hhd := hw hd (by simp)
    have htl : ∀ p ∈ tl, p.2.1.length = p.1.length ∧ p.2.2.length = p.1.length :=
      fun p hp => hw p (by simp [hp])
    have hfold : processBatches s (hd :: tl)
        = processBatches (update_plot s hd.1 hd.2.1 hd.2.2) tl := by
      simp [processBatches]
    obtain ⟨ih1, ih2⟩ := ih (update_plot s hd.1 hd.2.1 hd.2.2) htl
    obtain ⟨hs1, _⟩ := update_plot_step s hd.1 hd.2.1 hd.2.2
    constructor
    · rw [hfold, ih1, hs1]
      simp [rowsOf_length, Nat.add_assoc]
    · rw [hfold, ih2, hs1]
      simp only [List.map_append, List.flatMap_cons, List.append_assoc]
      rw [rowsOf_proj _ _ _ _ _ hhd.1 hhd.2]

/-- The row-append loop of `save_to_excel` builds `acc ++ rows.map rowOf`. -/
theorem excel_rows_foldl (rows : List (ℚ × ℚ × ℚ)) :
    ∀ acc : List (List Cell),
      rows.foldl (fun ws r => ws ++ [rowOf r]) acc = acc ++ rows.map rowOf := by
  induction rows with
  | nil => intro acc; simp
  | cons r rs ih =>
    intro acc
    rw [List.foldl_cons, ih]
    simp

/-- The sheet `save_to_excel` builds is the header followed by one row per
input tuple, in input order, whatever the write outcome. -/
theorem save_to_excel_sheet (rows : List (ℚ × ℚ × ℚ)) (wr : Except String Unit) :
    (save_to_excel rows wr).sheet = headerRow :: rows.map rowOf := by
  cases wr <;> simp [save_to_excel, excel_rows_foldl]

/-- Claim C1.  The claim says each accepted sample's time offset is its
running sample index times the interval in ms, strictly increasing inside
a batch (first batch of 3 at 10 µs: 0, 0.01, 0.02 ms).  Evaluating the
code at that very input: `get_data` hands the batch the constant list
`[0.01, 0.01, 0.01]` and `update_plot` records exactly those three equal
time offsets, not `[0, 0.01, 0.02]`. -/
theorem c1_batch_time_offsets_collapse :
    (get_data wConn (.ok 3 [1, 2, 3] [4, 5, 6] false)).1
      = .quad [1 / 100, 1 / 100, 1 / 100] [1, 2, 3] [4, 5, 6] 3
  ∧ (update_plot (start_acquisition mwInit (some 10) (some 50000) (some 1) (some 9)).1
        [1 / 100, 1 / 100, 1 / 100] [1, 2, 3] [4, 5, 6]).allData.map (fun r => r.1)
      = [1 / 100, 1 / 100, 1 / 100]
  ∧ ([(1 : ℚ) / 100, 1 / 100, 1 / 100] ≠ [0, 1 / 100, 2 / 100]) := by
  refine ⟨?_, ?_, ?_⟩
  · simp [get_data, wConn, workerInit, List.replicate, List.take]
    norm_num
  · simp [update_plot, start_acquisition, mwInit, rowsOf, List.range_succ]
  · norm_num

/-- Claim C2.  The claim says every exit path after a successful connect
runs the stop-and-close teardown exactly once and then emits one
`finished`.  Evaluating the code: on a streaming-start failure the assert
raises out of `run` with no teardown and no `finished`; on a fetch
failure the 3-tuple return breaks the 4-name unpack, so after the error
signal the loop dies with no teardown and no `finished`; only the
cooperative-stop path behaves as claimed. -/
theorem c2_teardown_and_finished_missing_on_failure_paths :
    runWorker (.ok ()) false [] (workerInit 10)
      = { events := [], teardowns := 0, raised := true }
  ∧ runWorker (.ok ()) true [.fetchRaise ("boom")] (workerInit 10)
      = { events := [.errorOccurred ("Error getting data: boom")],
          teardowns := 0, raised := true }
  ∧ runWorker (.ok ()) true [] (workerInit 10)
      = { events := [.finished], teardowns := 1, raised := false } := by
  refine ⟨by decide, ?_, ?_⟩
  · simp [runWorker, runLoop, get_data, workerInit]
  · simp [runWorker, runLoop, workerInit]

/-- Claim C3.  For every sequence of (well-formed) batches delivered to
the controller during one run, the session log ends with length equal to
the sum of the batch sample counts, and projecting each logged row to its
channel-A/channel-B voltages yields the delivered samples in exactly
their arrival order, within and across batches. -/
theorem c3_session_log_conservation_and_order (s : MWState)
    (batches : List (List ℚ × List ℚ × List ℚ))
    (hs : s.allData = [])
    (hw : ∀ p ∈ batches, p.2.1.length = p.1.length ∧ p.2.2.length = p.1.length) :
    (processBatches s batches).allData.length
        = (batches.map (fun p => p.1.length)).sum
  ∧ (processBatches s batches).allData.map (fun r => (r.2.1, r.2.2))
        = batches.flatMap (fun p => p.2.1.zip p.2.2) := by
  obtain ⟨h1, h2⟩ := processBatches_general batches s hw
  rw [hs] at h1 h2
  exact ⟨by simpa using h1, by simpa using h2⟩

theorem c3_session_log_conservation_and_order_witness :
    (mwInit.allData = []
      ∧ ∀ p ∈ [([(1 : ℚ)], [(2 : ℚ)], [(3 : ℚ)]), ([4, 5], [6, 7], [8, 9])],
          p.2.1.length = p.1.length ∧ p.2.2.length = p.1.length)
  ∧ (processBatches mwInit
        [([(1 : ℚ)], [(2 : ℚ)], [(3 : ℚ)]), ([4, 5], [6, 7], [8, 9])]).allData.length
      = ([([(1 : ℚ)], [(2 : ℚ)], [(3 : ℚ)]), ([4, 5], [6, 7], [8, 9])].map
          (fun p => p.1.length)).sum :=
  ⟨⟨rfl, by decide⟩,
   (c3_session_log_conservation_and_order mwInit
      [([(1 : ℚ)], [(2 : ℚ)], [(3 : ℚ)]), ([4, 5], [6, 7], [8, 9])] rfl (by decide)).1⟩

/-- Claim C4.  For every capacity `C` and insertion sequence `xs` into an
initially empty display deque: the final content is exactly the last
`min N C` insertions in original relative order (the `drop` formula), the
length is `min N C`, no prefix of the insertions ever pushes the length
above `C`, and an insertion into a full buffer of positive capacity
evicts exactly the single oldest element. -/
theorem c4_ring_buffer_bounded_window (C : ℕ) (xs : List ℚ) :
    dequeExtend C [] xs = xs.drop (xs.length - C)
  ∧ (dequeExtend C [] xs).length = min xs.length C
  ∧ (∀ k : ℕ, (dequeExtend C [] (xs.take k)).length ≤ C)
  ∧ (∀ (buf : List ℚ) (x : ℚ), buf.length = C → 0 < C →
        dequePush C buf x = buf.drop 1 ++ [x]) := by
  refine ⟨dequeExtend_empty_eq_drop C xs, ?_, ?_, ?_⟩
  · rw [dequeExtend_empty_eq_drop, List.length_drop]; omega
  · intro k
    rw [dequeExtend_empty_eq_drop, List.length_drop]; omega
  · intro buf x h hC
    rw [dequePush, if_neg (by omega), if_pos hC]

theorem c4_ring_buffer_bounded_window_witness :
    ([(5 : ℚ), 6].length = 2 ∧ 0 < 2)
  ∧ dequePush 2 [(5 : ℚ), 6] 7 = [(5 : ℚ), 6].drop 1 ++ [7] :=
  ⟨⟨rfl, by decide⟩,
   (c4_ring_buffer_bounded_window 2 []).2.2.2 [(5 : ℚ), 6] 7 rfl (by decide)⟩

/-- Claim C5.  `start_acquisition` called while `is_running` is set warns
that acquisition is already running and returns with the window state
completely unchanged: session log, the three deques, the sample counter
and the worker reference are all as before, and no new worker is built. -/
theorem c5_start_while_running_rejected (s : MWState)
    (oi om oo oc : Option ℤ) (h : s.isRunning = true) :
    start_acquisition s oi om oo oc = (s, .alreadyRunning) := by
  simp [start_acquisition, h]

theorem c5_start_while_running_rejected_witness :
    mwRunning.isRunning = true
  ∧ start_acquisition mwRunning (some 10) (some 50000) (some 1) (some 9)
      = (mwRunning, .alreadyRunning) :=
  ⟨rfl, c5_start_while_running_rejected mwRunning (some 10) (some 50000) (some 1)
      (some 9) rfl⟩

/-- Claim C6.  `save_data` refuses while running, refuses on an empty
session log, and otherwise hands the serializer a sheet that is exactly
the header row followed by one row per logged sample in log order; in
every case the window state (in particular the session log) is returned
unchanged. -/
theorem c6_export_gating_sheet_and_readonly (s : MWState) (wr : Except String Unit) :
    (save_data s wr).1 = s
  ∧ (s.isRunning = true → (save_data s wr).2.1 = .warningRunning)
  ∧ (s.isRunning = false → s.allData = [] → (save_data s wr).2.1 = .infoNoData)
  ∧ (s.isRunning = false → s.allData ≠ [] →
        (save_data s wr).2.2 = some (save_to_excel s.allData wr)
      ∧ (save_to_excel s.allData wr).sheet = headerRow :: s.allData.map rowOf) := by
  refine ⟨?_, ?_, ?_, ?_⟩
  · unfold save_data
    split_ifs <;> rfl
  · intro h
    simp [save_data, h]
  · intro h1 h2
    simp [save_data, h1, h2]
  · intro h1 h2
    have hne : s.allData.isEmpty = false := by
      cases hs : s.allData
      · exact absurd hs h2
      · simp
    exact ⟨by simp [save_data, h1, hne], save_to_excel_sheet s.allData wr⟩

theorem c6_export_gating_sheet_and_readonly_witness :
    (mwSaved.isRunning = false ∧ mwSaved.allData ≠ [])
  ∧ ((save_data mwSaved (.ok ())).1 = mwSaved
      ∧ (save_to_excel mwSaved.allData (.ok ())).sheet
          = headerRow :: mwSaved.allData.map rowOf) :=
  ⟨⟨rfl, by simp [mwSaved, mwInit]⟩,
   ⟨(c6_export_gating_sheet_and_readonly mwSaved (.ok ())).1,
    ((c6_export_gating_sheet_and_readonly mwSaved (.ok ())).2.2.2 rfl
        (by simp [mwSaved, mwInit])).2⟩⟩

/-- Claim C7 counterexample.  The claim says start validates that every
configured value is a positive integer and rejects non-positive values
with an invalid-config error.  With the non-positive channel range -1
(all fields parsing as integers), start does not reject: it proceeds and
reports a successful start. -/
theorem c7_nonpositive_config_not_rejected_cex :
    (start_acquisition mwInit (some 10) (some 50000) (some 1) (some (-1))).2 = .started
  ∧ (start_acquisition mwInit (some 10) (some 50000) (some 1) (some (-1))).2
      ≠ .invalidInput := by
  constructor
  · simp [start_acquisition, mwInit]
  · simp [start_acquisition, mwInit]

/-- Claim C7 as amended: before any hardware interaction, start validates
only that each of the four fields parses as an integer — exactly the
non-integer inputs are rejected synchronously with the invalid-input
error; non-positive integer values pass this validation. -/
theorem c7_validation_rejects_only_nonintegers (s : MWState)
    (oi om oo oc : Option ℤ) (h : s.isRunning = false) :
    ((start_acquisition s oi om oo oc).2 = .invalidInput
      ↔ (oi = none ∨ om = none ∨ oo = none ∨ oc = none)) := by
  rcases oi with _ | i
  · simp [start_acquisition, h]
  · rcases om with _ | m
    · simp [start_acquisition, h]
    · rcases oo with _ | o
      · simp [start_acquisition, h]
      · rcases oc with _ | c
        · simp [start_acquisition, h]
        · simp only [start_acquisition, h, Bool.false_eq_true, if_false]
          split_ifs <;> simp

theorem c7_validation_rejects_only_nonintegers_witness :
    mwInit.isRunning = false
  ∧ ((start_acquisition mwInit (some 10) none (some 1) (some 9)).2 = .invalidInput
      ↔ (some (10 : ℤ) = none ∨ (none : Option ℤ) = none
          ∨ some (1 : ℤ) = none ∨ some (9 : ℤ) = none)) :=
  ⟨rfl, c7_validation_rejects_only_nonintegers mwInit (some 10) none (some 1)
      (some 9) rfl⟩

/-- Claim C8 counterexample.  The claim says a driver-reported overflow is
surfaced as a non-fatal flag attached to the returned batch, visible to
the consumer.  At a concrete successful fetch, the events the consumer
receives are bit-for-bit identical whether or not the driver reported
overflow — the emitted batch carries no flag of any kind. -/
theorem c8_overflow_flag_not_surfaced_cex :
    (runWorker (.ok ()) true [.ok 2 [1, 2] [3, 4] true] (workerInit 10)).events
      = (runWorker (.ok ()) true [.ok 2 [1, 2] [3, 4] false] (workerInit 10)).events
  ∧ (runWorker (.ok ()) true [.ok 2 [1, 2] [3, 4] true] (workerInit 10)).events
      = [.dataAcquired [1 / 100, 1 / 100] [1, 2] [3, 4], .finished] := by
  constructor
  · simp [runWorker, runLoop, get_data, workerInit]
  · simp [runWorker, runLoop, get_data, workerInit, List.replicate, List.take]
    norm_num

/-- Claim C8 as amended: an overflow report is indeed non-fatal — the
fetch still succeeds, no error is signalled, and the loop keeps running —
but the condition is not attached to the batch: the value returned to the
consumer is identical with and without overflow, the flag being recorded
only in the worker-internal overflow cell that nothing ever reads. -/
theorem c8_overflow_nonfatal_but_internal (w : WorkerSt) (n : ℕ) (a b : List ℚ)
    (hh : w.handleSet = true) :
    (get_data w (.ok n a b true)).1 = (get_data w (.ok n a b false)).1
  ∧ (get_data w (.ok n a b true)).2.2 = []
  ∧ ((get_data w (.ok n a b true)).2.1).overflowFlag = true
  ∧ ((get_data w (.ok n a b false)).2.1).overflowFlag = false
  ∧ ((get_data w (.ok n a b true)).2.1).running = w.running := by
  unfold get_data
  by_cases hn : 0 < n <;> simp [hh, hn]

theorem c8_overflow_nonfatal_but_internal_witness :
    wConn.handleSet = true
  ∧ (get_data wConn (.ok 1 [1] [2] true)).1 = (get_data wConn (.ok 1 [1] [2] false)).1 :=
  ⟨rfl, (c8_overflow_nonfatal_but_internal wConn 1 [1] [2] rfl).1⟩

/-- Claim C9.  A successful fetch with no new data returns the explicit
empty batch `([], [], [], 0)` — a success, not an error — emits nothing,
leaves the running flag up, and the loop just moves on to the next poll;
across one loop iteration a `data_acquired` emission happens exactly when
the fetched sample count is positive. -/
theorem c9_empty_batch_and_emission_iff_positive (w : WorkerSt) (n : ℕ)
    (a b : List ℚ) (ov : Bool) (rest : List DriverFetch)
    (hh : w.handleSet = true) (hr : w.running = true) :
    (get_data w (.ok 0 a b ov)).1 = .quad [] [] [] 0
  ∧ (get_data w (.ok 0 a b ov)).2.2 = []
  ∧ ((get_data w (.ok 0 a b ov)).2.1).running = true
  ∧ (runLoop w (.ok 0 a b ov :: rest)).1
      = (runLoop { w with overflowFlag := ov } rest).1
  ∧ (runLoop w [.ok n a b ov]).1
      = (if 0 < n
         then [WEvent.dataAcquired
                (List.replicate n ((w.intervalUs : ℚ) * (1 / 1000)))
                (a.take n) (b.take n)]
         else []) := by
  refine ⟨?_, ?_, ?_, ?_, ?_⟩
  · simp [get_data, hh]
  · simp [get_data, hh]
  · simp [get_data, hh, hr]
  · simp [runLoop, get_data, hh, hr]
  · by_cases hn : 0 < n <;> simp [runLoop, get_data, hh, hr, hn]

theorem c9_empty_batch_and_emission_iff_positive_witness :
    (wConn.handleSet = true ∧ wConn.running = true)
  ∧ (get_data wConn (.ok 0 [1] [2] false)).1 = .quad [] [] [] 0 :=
  ⟨⟨rfl, rfl⟩,
   (c9_empty_batch_and_emission_iff_positive wConn 2 [1] [2] false [] rfl rfl).1⟩

/-- Claim C10.  For every input row sequence and every outcome of the
underlying file write, `save_to_excel` returns normally (its catch-all
handler swallows the failure), and `save_data` therefore shows the user
the success message even when the write failed. -/
theorem c10_serializer_never_raises_success_reported
    (rows : List (ℚ × ℚ × ℚ)) (wr : Except String Unit) (s : MWState)
    (h1 : s.isRunning = false) (h2 : s.allData ≠ []) :
    (save_to_excel rows wr).raised = false
  ∧ (save_data s wr).2.1 = .infoSuccess := by
  constructor
  · cases wr <;> rfl
  · have hne : s.allData.isEmpty = false := by
      cases hs : s.allData
      · exact absurd hs h2
      · simp
    simp [save_data, h1, hne]

theorem c10_serializer_never_raises_success_reported_witness :
    (mwSaved.isRunning = false ∧ mwSaved.allData ≠ [])
  ∧ ((save_to_excel mwSaved.allData (.error ("disk full"))).raised = false
      ∧ (save_data mwSaved (.error ("disk full"))).2.1 = .infoSuccess) :=
  ⟨⟨rfl, by simp [mwSaved, mwInit]⟩,
   c10_serializer_never_raises_success_reported mwSaved.allData
      (.error ("disk full")) mwSaved rfl (by simp [mwSaved, mwInit])⟩
